import Mathlib

/-!
Verification development for the leak-simulation core of the epanet-backend
repository (scripts/leak_simulation/).  Python floats are modelled as ℚ
(ℝ where a square root is required), times in seconds as ℤ, node ids as
String.  Randomness (`random.shuffle`, `random.choice`, `random.uniform`,
`random.sample`, `np.random.normal`) is modelled by oracle parameters: a
`random.uniform(a, b)` call becomes `a + (b - a) * u` for a draw
`u ∈ [0, 1]`, matching CPython's implementation, and the other sources are
passed in as explicit lists / index functions whose contracts (permutation,
in-range index, distinct sample) appear as hypotheses.
-/

/-- `LeakScenario` dataclass of scripts/leak_simulation/leak_scenarios.py:
primary-leak fields plus the optional parallel lists used when a scenario
carries several simultaneous leaks. -/
structure LeakScenario where
  scenario_id : ℕ
  leak_node : String
  leak_area_m2 : ℚ
  start_time_s : ℤ
  duration_s : ℤ
  end_time_s : ℤ
  discharge_coeff : ℚ
  leak_nodes : Option (List String) := none
  leak_areas_m2 : Option (List ℚ) := none
  leak_start_times_s : Option (List ℤ) := none
  leak_durations_s : Option (List ℤ) := none
  leak_end_times_s : Option (List ℤ) := none
deriving DecidableEq, Repr

/-- Constructor arguments of `LeakScenarioGenerator` (leak_scenarios.py):
eligible nodes, leak-area range (m²), leak-time range (hours), discharge
coefficient and the number of simultaneous leaks per scenario. -/
structure LeakScenarioGeneratorCfg where
  leak_nodes : List String
  leak_area_min : ℚ
  leak_area_max : ℚ
  start_h_min : ℚ
  start_h_max : ℚ
  duration_h_min : ℚ
  duration_h_max : ℚ
  discharge_coeff : ℚ
  leaks_per_scenario : ℕ := 1
deriving DecidableEq, Repr

/-- CPython's `random.uniform(a, b)` is `a + (b - a) * random()`; the draw
`u` of `random()` is passed in explicitly. -/
def pyUniform (a b u : ℚ) : ℚ := a + (b - a) * u

/-- Python's `int()` on a float: truncation toward zero. -/
def pyInt (q : ℚ) : ℤ := if 0 ≤ q then q.floor else q.ceil

/-- The random draws consumed by `_create_scenario` for one scenario.
`area i` stands for the i-th `_sample_log_uniform` result (the log-uniform
area draw), `uStart i` / `uDur i` for the `random()` values behind the two
`random.uniform` calls of the i-th leak (index 0 in the single-leak path). -/
structure ScenarioDraws where
  area : ℕ → ℚ
  uStart : ℕ → ℚ
  uDur : ℕ → ℚ

/-- One sampled leak time window, in seconds. -/
structure LeakWindow where
  start_s : ℤ
  dur_s : ℤ
  end_s : ℤ
deriving DecidableEq, Repr

/-- The leak-window sampling block of `_create_scenario` (leak_scenarios.py);
the source duplicates this block verbatim in the single-leak path and inside
the per-leak loop of the multi-leak path:
`start_h = uniform(start_h_min, min(start_h_max, duration_h - 1))`,
`duration_h = uniform(duration_h_min, min(duration_h_max, duration_h - start_h))`,
then conversion to integer seconds and `end = start + duration`. -/
def sampleWindow (cfg : LeakScenarioGeneratorCfg) (durationH u1 u2 : ℚ) : LeakWindow :=
  let startH := pyUniform cfg.start_h_min (min cfg.start_h_max (durationH - 1)) u1
  let maxDuration := min cfg.duration_h_max (durationH - startH)
  let durH := pyUniform cfg.duration_h_min maxDuration u2
  let startS := pyInt (startH * 3600)
  let durS := pyInt (durH * 3600)
  { start_s := startS, dur_s := durS, end_s := startS + durS }

/-- `_create_scenario` of leak_scenarios.py.  `sample pop n` stands for
`random.sample(pop, n)` (its contract — `n` distinct elements of `pop` —
is a hypothesis where needed).  With `leaks_per_scenario = 1` it builds a
single-leak scenario; otherwise it draws `min(leaks_per_scenario - 1,
len(available))` additional distinct nodes and fills the parallel lists,
the primary leak being entry 0. -/
def createScenario (cfg : LeakScenarioGeneratorCfg)
    (sample : List String → ℕ → List String) (d : ScenarioDraws)
    (scenarioId : ℕ) (leakNode : String) (durationH : ℚ) : LeakScenario :=
  if cfg.leaks_per_scenario = 1 then
    let w := sampleWindow cfg durationH (d.uStart 0) (d.uDur 0)
    { scenario_id := scenarioId
      leak_node := leakNode
      leak_area_m2 := d.area 0
      start_time_s := w.start_s
      duration_s := w.dur_s
      end_time_s := w.end_s
      discharge_coeff := cfg.discharge_coeff }
  else
    let available := cfg.leak_nodes.filter (fun n => n ≠ leakNode)
    let nAdditional := min (cfg.leaks_per_scenario - 1) available.length
    let additional := if 0 < nAdditional then sample available nAdditional else []
    let allLeakNodes := leakNode :: additional
    let windows := (List.range allLeakNodes.length).map
      (fun i => sampleWindow cfg durationH (d.uStart i) (d.uDur i))
    { scenario_id := scenarioId
      leak_node := allLeakNodes.headD ""
      leak_area_m2 := ((List.range allLeakNodes.length).map (fun i => d.area i)).headD 0
      start_time_s := (windows.map (fun w => w.start_s)).headD 0
      duration_s := (windows.map (fun w => w.dur_s)).headD 0
      end_time_s := (windows.map (fun w => w.end_s)).headD 0
      discharge_coeff := cfg.discharge_coeff
      leak_nodes := some allLeakNodes
      leak_areas_m2 := some ((List.range allLeakNodes.length).map (fun i => d.area i))
      leak_start_times_s := some (windows.map (fun w => w.start_s))
      leak_durations_s := some (windows.map (fun w => w.dur_s))
      leak_end_times_s := some (windows.map (fun w => w.end_s)) }

/-- `LeakScenarioGenerator.generate` (leak_scenarios.py).  `shuffled` stands
for `random.shuffle`'s output on a copy of the eligible node list, `pick i`
for the index drawn by the i-th `random.choice(self.leak_nodes)` of phase 2,
and `draws i` for the RNG consumed by the scenario at overall position `i`.
If `ensure_all_nodes` and `n_scenarios < len(leak_nodes)`, the count is
raised to `len(leak_nodes)`; phase 1 creates one scenario per shuffled node
(ids starting at 1), phase 2 fills the remainder with random nodes. -/
def generateScenarios (cfg : LeakScenarioGeneratorCfg)
    (sample : List String → ℕ → List String)
    (shuffled : List String) (pick : ℕ → ℕ) (draws : ℕ → ScenarioDraws)
    (nScenarios : ℕ) (durationH : ℚ) (ensureAllNodes : Bool) : List LeakScenario :=
  let n := if ensureAllNodes ∧ nScenarios < cfg.leak_nodes.length then
      cfg.leak_nodes.length else nScenarios
  let phase1 := if ensureAllNodes then
      (shuffled.take n).mapIdx
        (fun i node => createScenario cfg sample (draws i) (i + 1) node durationH)
    else []
  let remaining := n - phase1.length
  let phase2 := (List.range remaining).map (fun i =>
      createScenario cfg sample (draws (phase1.length + i)) (phase1.length + i + 1)
        (cfg.leak_nodes.getD (pick i) "") durationH)
  phase1 ++ phase2

/-- One record of the scenario's leak list as the data model describes it
(`LeakSpec`): node id, aperture area, start, duration, end. -/
structure LeakSpec where
  node_id : String
  area_m2 : ℚ
  start_s : ℤ
  duration_s : ℤ
  end_s : ℤ
deriving DecidableEq, Repr

/-- The primary (and, for single-leak scenarios, only) leak of a scenario,
read off the backward-compatible scalar fields. -/
def primaryLeakSpec (sc : LeakScenario) : LeakSpec :=
  { node_id := sc.leak_node
    area_m2 := sc.leak_area_m2
    start_s := sc.start_time_s
    duration_s := sc.duration_s
    end_s := sc.end_time_s }

/-- The ordered leak list of a scenario: the zipped parallel lists when the
multi-leak fields are populated (non-empty), the primary fields otherwise —
the `leaks` list of the data model's `ScenarioDescriptor`. -/
def scenarioLeaks (sc : LeakScenario) : List LeakSpec :=
  match sc.leak_nodes, sc.leak_areas_m2, sc.leak_start_times_s,
      sc.leak_durations_s, sc.leak_end_times_s with
  | some ns, some ars, some ss, some ds, some es =>
      if ns.isEmpty then [primaryLeakSpec sc]
      else (List.range ns.length).map (fun i =>
        { node_id := ns.getD i ""
          area_m2 := ars.getD i 0
          start_s := ss.getD i 0
          duration_s := ds.getD i 0
          end_s := es.getD i 0 })
  | _, _, _, _, _ => [primaryLeakSpec sc]

/-- Well-formedness delivered by `_create_scenario`: either no multi-leak
fields at all, or all five lists populated with equal length, non-empty, and
entry 0 equal to the primary scalar fields. -/
def scenarioWFb (sc : LeakScenario) : Bool :=
  match sc.leak_nodes, sc.leak_areas_m2, sc.leak_start_times_s,
      sc.leak_durations_s, sc.leak_end_times_s with
  | none, none, none, none, none => true
  | some ns, some ars, some ss, some ds, some es =>
      !ns.isEmpty
      && decide (ars.length = ns.length) && decide (ss.length = ns.length)
      && decide (ds.length = ns.length) && decide (es.length = ns.length)
      && decide (ns.headD "" = sc.leak_node) && decide (ars.headD 0 = sc.leak_area_m2)
      && decide (ss.headD 0 = sc.start_time_s) && decide (ds.headD 0 = sc.duration_s)
      && decide (es.headD 0 = sc.end_time_s)
  | _, _, _, _, _ => false

/-- One row of the `labels.csv` table written by `DataExporter.export_labels`
(data_export.py). -/
structure LabelRow where
  scenario_id : ℕ
  leak_node : String
  leak_area_m2 : ℚ
  leak_start_time_s : ℤ
  leak_duration_s : ℤ
  leak_end_time_s : ℤ
  discharge_coeff : ℚ
deriving DecidableEq, Repr

/-- The single-leak label row of `export_labels` (the `else` branch), built
from the primary scalar fields of the scenario's metadata record. -/
def singleLabelRow (sc : LeakScenario) : LabelRow :=
  { scenario_id := sc.scenario_id
    leak_node := sc.leak_node
    leak_area_m2 := sc.leak_area_m2
    leak_start_time_s := sc.start_time_s
    leak_duration_s := sc.duration_s
    leak_end_time_s := sc.end_time_s
    discharge_coeff := sc.discharge_coeff }

/-- The label rows `export_labels` produces for one scenario metadata record:
`to_dict` adds `n_leaks = len(leak_nodes)` exactly when `leak_nodes` is a
non-empty list, and `export_labels` takes the multi-leak branch (one row per
leak, indexing the parallel lists) when `n_leaks > 1`, the single-leak
branch otherwise. -/
def labelRowsFor (sc : LeakScenario) : List LabelRow :=
  match sc.leak_nodes with
  | some ns =>
      if 1 < ns.length then
        (List.range ns.length).map (fun i =>
          { scenario_id := sc.scenario_id
            leak_node := ns.getD i ""
            leak_area_m2 := (sc.leak_areas_m2.getD []).getD i 0
            leak_start_time_s := (sc.leak_start_times_s.getD []).getD i 0
            leak_duration_s := (sc.leak_durations_s.getD []).getD i 0
            leak_end_time_s := (sc.leak_end_times_s.getD []).getD i 0
            discharge_coeff := sc.discharge_coeff })
      else [singleLabelRow sc]
  | none => [singleLabelRow sc]

/-- Sort key used by `export_labels`: `sort_values(['scenario_id',
'leak_start_time_s'])`. -/
def labelRowLE (a b : LabelRow) : Prop :=
  a.scenario_id < b.scenario_id ∨
    (a.scenario_id = b.scenario_id ∧ a.leak_start_time_s ≤ b.leak_start_time_s)

instance : DecidableRel labelRowLE := by
  intro a b
  unfold labelRowLE
  infer_instance

/-- `DataExporter.export_labels` over a batch of scenario metadata records:
one label row per leak, sorted by `(scenario_id, leak_start_time_s)`. -/
def exportLabels (scenarios : List LeakScenario) : List LabelRow :=
  List.insertionSort labelRowLE (scenarios.flatMap labelRowsFor)

/-- Node-id normalization used by `_extract_results` (leak_simulator.py)
and by the labeling join of train_leak_model.py:
`str(int(float(s))) if '.' in s else s`, i.e. a float-suffix such as
`"1359.0"` is stripped; for the repository's plain decimal node ids this is
the part of the character sequence before the first dot. -/
def normalizeNodeId (s : String) : String :=
  if '.' ∈ s.data then String.mk (s.data.takeWhile (fun c => c ≠ '.')) else s

/-- The normalized leak-node list `_extract_results` builds for a scenario:
every entry of `leak_nodes` when that list is non-empty, otherwise the
single normalized primary node. -/
def scenarioLeakNodeList (sc : LeakScenario) : List String :=
  match sc.leak_nodes with
  | some ns => if ns.isEmpty then [normalizeNodeId sc.leak_node]
               else ns.map normalizeNodeId
  | none => [normalizeNodeId sc.leak_node]

/-- `is_leak_node` of `_extract_results`: membership of the normalized
column name in the normalized leak-node list. -/
def isLeakNodeB (sc : LeakScenario) (nodeNorm : String) : Bool :=
  (scenarioLeakNodeList sc).contains nodeNorm

/-- The active-leak search of `_extract_results`' physics fallback: in the
multi-leak case (`leak_nodes` present with more than one entry) the first
index whose normalized node matches and whose closed window contains `t`,
returning that leak's area; otherwise the primary window and area.  (The
single branch carries no node test in the source: it runs under
`is_leak_node`.) -/
def activeLeakArea (sc : LeakScenario) (nodeNorm : String) (t : ℤ) : Option ℚ :=
  match sc.leak_nodes with
  | some ns =>
      if 1 < ns.length then
        (((List.range ns.length).find? (fun i =>
            decide (normalizeNodeId (ns.getD i "") = nodeNorm)
              && decide ((sc.leak_start_times_s.getD []).getD i 0 ≤ t)
              && decide (t ≤ (sc.leak_end_times_s.getD []).getD i 0))).map
          (fun i => (sc.leak_areas_m2.getD []).getD i 0))
      else if sc.start_time_s ≤ t ∧ t ≤ sc.end_time_s then some sc.leak_area_m2 else none
  | none =>
      if sc.start_time_s ≤ t ∧ t ≤ sc.end_time_s then some sc.leak_area_m2 else none

/-- The per-cell `leak_demand` value the Engine (WNTR) hands back for a
node/timestamp: the column may be absent (or the lookup fail), the value
may be NaN/None, or a finite float. -/
inductive EngineLeakValue where
  | missing : EngineLeakValue
  | nan : EngineLeakValue
  | val (x : ℝ) : EngineLeakValue

/-- The `leak_demand` computation of `_extract_results` (leak_simulator.py)
for one node/timestamp cell, in m³/s (the export then scales by 1000 to
L/s): start from 0; if the Engine column exists, the node is a leak node
and the Engine value is finite, take it; if the value so far is 0 and the
node is a leak node, fall back to the orifice formula
`Cd * A * sqrt(2 * 9.81 * h)` with `h` the gauge pressure, but only when
some leak of this node has `t` inside its closed window and the pressure is
positive. -/
noncomputable def extractLeakDemand (sc : LeakScenario) (node : String)
    (t : ℤ) (pressure : ℝ) (ev : EngineLeakValue) : ℝ :=
  let nodeNorm := normalizeNodeId node
  let isLeak := isLeakNodeB sc nodeNorm
  let d0 : ℝ := if isLeak then (match ev with | .val x => x | _ => 0) else 0
  if d0 = 0 ∧ isLeak = true then
    match activeLeakArea sc nodeNorm t with
    | some area =>
        if 0 < pressure then
          (sc.discharge_coeff : ℝ) * (area : ℝ) * Real.sqrt (2 * 9.81 * pressure)
        else 0
    | none => 0
  else d0

/-- The physics fallback value by itself: the orifice-formula estimate at a
node/timestamp, 0 unless the node is a leak node with an active window and
positive gauge pressure. -/
noncomputable def orificeFallback (sc : LeakScenario) (node : String)
    (t : ℤ) (pressure : ℝ) : ℝ :=
  if isLeakNodeB sc (normalizeNodeId node) = true then
    match activeLeakArea sc (normalizeNodeId node) t with
    | some area =>
        if 0 < pressure then
          (sc.discharge_coeff : ℝ) * (area : ℝ) * Real.sqrt (2 * 9.81 * pressure)
        else 0
    | none => 0
  else 0

/-- One record of `simulation_results['nodes'][node_name]` as built by
`_extract_results`: timestamp plus the four measured channels. -/
structure SimNodeRecord where
  timestamp : ℤ
  pressure : ℚ
  head : ℚ
  demand : ℚ
  leak_demand : ℚ
deriving DecidableEq, Repr

/-- One row of the per-scenario node partition written by
`DataExporter._export_nodes`: the record plus `node_id` and `scenario_id`. -/
structure ExportedNodeRow where
  timestamp : ℤ
  pressure : ℚ
  head : ℚ
  demand : ℚ
  leak_demand : ℚ
  node_id : String
  scenario_id : ℕ
deriving DecidableEq, Repr

/-- Sort key of `_export_nodes`: `sort_values(['timestamp', 'node_id'])`. -/
def nodeRowLE (a b : ExportedNodeRow) : Prop :=
  a.timestamp < b.timestamp ∨ (a.timestamp = b.timestamp ∧ a.node_id ≤ b.node_id)

instance : DecidableRel nodeRowLE := by
  intro a b
  unfold nodeRowLE
  infer_instance

instance : IsTotal ExportedNodeRow nodeRowLE := by
  constructor
  intro a b
  rcases lt_trichotomy a.timestamp b.timestamp with h | h | h
  · exact Or.inl (Or.inl h)
  · rcases le_total a.node_id b.node_id with h' | h'
    · exact Or.inl (Or.inr ⟨h, h'⟩)
    · exact Or.inr (Or.inr ⟨h.symm, h'⟩)
  · exact Or.inr (Or.inl h)

instance : IsTrans ExportedNodeRow nodeRowLE := by
  constructor
  intro a b c hab hbc
  rcases hab with h1 | ⟨h1, h1'⟩
  · rcases hbc with h2 | ⟨h2, _⟩
    · exact Or.inl (h1.trans h2)
    · exact Or.inl (h2 ▸ h1)
  · rcases hbc with h2 | ⟨h2, h2'⟩
    · exact Or.inl (h1 ▸ h2)
    · exact Or.inr ⟨h1.trans h2, h1'.trans h2'⟩

/-- The `record.copy()` plus `node_id`/`scenario_id` tagging of
`_export_nodes`. -/
def mkExportedNodeRow (scenarioId : ℕ) (nodeName : String)
    (r : SimNodeRecord) : ExportedNodeRow :=
  { timestamp := r.timestamp
    pressure := r.pressure
    head := r.head
    demand := r.demand
    leak_demand := r.leak_demand
    node_id := nodeName
    scenario_id := scenarioId }

/-- `DataExporter._export_nodes` (data_export.py): flatten the per-node
record lists into rows tagged with `node_id` and `scenario_id`, then sort by
`(timestamp, node_id)`.  (The source performs no deduplication.) -/
def exportNodes (scenarioId : ℕ)
    (nodesData : List (String × List SimNodeRecord)) : List ExportedNodeRow :=
  List.insertionSort nodeRowLE
    (nodesData.flatMap (fun p => p.2.map (mkExportedNodeRow scenarioId p.1)))

/-- The `(node_id, timestamp)` key of an exported row. -/
def nodeRowKey (r : ExportedNodeRow) : String × ℤ := (r.node_id, r.timestamp)

/-- The result record one entry of `DatasetGenerator._run_sequential`
produces (dataset_generator.py): success flag, id, the full result
DataFrame on success, the error string on failure. -/
structure RunRecord (DF : Type) where
  success : Bool
  scenario_id : ℕ
  df : Option DF
  error : Option String
  metadata : Option LeakScenario
deriving DecidableEq

/-- The try/except body of one `_run_sequential` iteration: a raising
simulation (`.error`) is caught and recorded, never propagated. -/
def runRecordOf {DF : Type} (sc : LeakScenario) (r : Except String DF) : RunRecord DF :=
  match r with
  | .ok df =>
      { success := true, scenario_id := sc.scenario_id, df := some df,
        error := none, metadata := some sc }
  | .error e =>
      { success := false, scenario_id := sc.scenario_id, df := none,
        error := some e, metadata := none }

/-- `DatasetGenerator._run_sequential`: one result record per scenario, in
order, each produced by its own guarded simulation run. -/
def runSequential {DF : Type} (runFn : LeakScenario → Except String DF)
    (scenarios : List LeakScenario) : List (RunRecord DF) :=
  scenarios.map (fun sc => runRecordOf sc (runFn sc))

/-- The counts `DatasetGenerator.generate` reports:
`successful = sum(1 for r in results if r['success'])`,
`failed = len(results) - successful`. -/
structure BatchCounts where
  total_scenarios : ℕ
  successful : ℕ
  failed : ℕ
deriving DecidableEq, Repr

/-- The summary aggregation of `DatasetGenerator.generate` (step 4). -/
def summarizeResults {DF : Type} (results : List (RunRecord DF)) : BatchCounts :=
  { total_scenarios := results.length
    successful := (results.filter (fun r => r.success)).length
    failed := results.length - (results.filter (fun r => r.success)).length }

/-- The scenario ids for which `DatasetGenerator.generate` writes a
`scenario_{id}.parquet` partition: exactly the successful results (the
export loop does `continue` on failures). -/
def exportedScenarioIds {DF : Type} (results : List (RunRecord DF)) : List ℕ :=
  (results.filter (fun r => r.success)).map (fun r => r.scenario_id)

/-- `DatasetGenerator.__init__`: a template-load failure raises
(`RuntimeError`) before any scenario runs — the only batch-fatal error. -/
def datasetGeneratorInit (loadResult : Except String Unit) : Except String Unit :=
  match loadResult with
  | .ok _ => .ok ()
  | .error m => .error ("Cannot load model: " ++ m)

/-- The record a parallel worker returns to the coordinator.  `df` holds the
full per-node/per-link time-series result when the worker sends it back;
`metadata` is the scenario's `to_dict()` record. -/
structure WorkerReturn (DF : Type) where
  success : Bool
  scenario_id : ℕ
  error : Option String
  metadata : Option LeakScenario
  df : Option DF
deriving DecidableEq

/-- `run_scenario_worker` of leak_simulation/leak_simulator.py: the worker
loads its own model copy, runs the scenario, injects noise and exports the
result itself (`exportFn` applied to the big result inside the worker), and
returns only `{success, scenario_id, error?, metadata}` — the time series
never leaves the worker. -/
def leakSimRunScenarioWorker {DF : Type} (sc : LeakScenario) (loadOk : Bool)
    (runResult : Except String DF) (exportFn : DF → Except String Unit) :
    WorkerReturn DF :=
  if loadOk = false then
    { success := false, scenario_id := sc.scenario_id,
      error := some "Cannot load model", metadata := some sc, df := none }
  else
    match runResult with
    | .error e =>
        { success := false, scenario_id := sc.scenario_id,
          error := some e, metadata := some sc, df := none }
    | .ok res =>
        match exportFn res with
        | .ok _ =>
            { success := true, scenario_id := sc.scenario_id,
              error := none, metadata := some sc, df := none }
        | .error e =>
            { success := false, scenario_id := sc.scenario_id,
              error := some ("Export error: " ++ e), metadata := some sc, df := none }

/-- `run_scenario_worker` of leak_simulation/dataset_generator.py: on
success it returns `{'success': True, 'scenario_id': ..., 'df': df,
'metadata': ...}` — the full result DataFrame crosses the
worker-to-coordinator boundary and the coordinator performs the export. -/
def datasetGenRunScenarioWorker {DF : Type} (sc : LeakScenario) (loadOk : Bool)
    (runResult : Except String DF) : WorkerReturn DF :=
  if loadOk = false then
    { success := false, scenario_id := sc.scenario_id,
      error := some "Cannot load model", metadata := none, df := none }
  else
    match runResult with
    | .ok df =>
        { success := true, scenario_id := sc.scenario_id,
          error := none, metadata := some sc, df := some df }
    | .error e =>
        { success := false, scenario_id := sc.scenario_id,
          error := some e, metadata := none, df := none }

/-- A node record as seen by `NoiseInjector.inject_noise`: the channels are
optional (the source guards with `'pressure' in record and ... is not
None`), and the `_raw` keys are absent (`none`) until noise adds them. -/
structure NoiseNodeRecord where
  timestamp : ℤ
  pressure : Option ℚ
  head : Option ℚ
  demand : Option ℚ
  leak_demand : Option ℚ
  pressure_raw : Option ℚ := none
  demand_raw : Option ℚ := none
deriving DecidableEq, Repr

/-- A pipe record as seen by `NoiseInjector.inject_noise`. -/
structure NoisePipeRecord where
  timestamp : ℤ
  flow : Option ℚ
  flow_raw : Option ℚ := none
deriving DecidableEq, Repr

/-- The `simulation_results` dict shape consumed by `inject_noise`. -/
structure SimulationSeries where
  nodes : List (String × List NoiseNodeRecord)
  pipes : List (String × List NoisePipeRecord)
  timestamps : List ℤ
deriving DecidableEq

/-- The per-record node transformation of `inject_noise`
(noise_injection.py): pressure gets its Gaussian draw added and is floored
at 0 (`max(0, ...)`), with the pre-noise value kept under `pressure_raw`;
demand likewise under `demand_raw`; absent channels are untouched. -/
def injectNodeRecord (pressureNoise demandNoise : ℚ)
    (r : NoiseNodeRecord) : NoiseNodeRecord :=
  let r1 := match r.pressure with
    | some p =>
        { r with pressure := some (max 0 (p + pressureNoise)), pressure_raw := some p }
    | none => r
  match r1.demand with
  | some dm =>
      { r1 with demand := some (max 0 (dm + demandNoise)), demand_raw := some dm }
  | none => r1

/-- The per-record pipe transformation of `inject_noise`: the flow noise is
added with no clipping (the noisy flow may be negative), the pre-noise
value kept under `flow_raw`. -/
def injectPipeRecord (flowNoise : ℚ) (r : NoisePipeRecord) : NoisePipeRecord :=
  match r.flow with
  | some f => { r with flow := some (f + flowNoise), flow_raw := some f }
  | none => r

/-- Constructor state of `NoiseInjector` (noise_injection.py). -/
structure NoiseInjectorCfg where
  pressure_sigma : ℚ
  flow_sigma : ℚ
  enabled : Bool
deriving DecidableEq, Repr

/-- `NoiseInjector.inject_noise`: identity when disabled; otherwise rebuild
the series with per-record noise, the draw functions standing for the
`np.random.normal(0, sigma)` values consumed at (series index, record
index). -/
def injectNoise (cfg : NoiseInjectorCfg)
    (pressureDraw demandDraw flowDraw : ℕ → ℕ → ℚ)
    (s : SimulationSeries) : SimulationSeries :=
  if cfg.enabled = false then s
  else
    { nodes := s.nodes.mapIdx (fun ni p =>
        (p.1, p.2.mapIdx (fun ri r =>
          injectNodeRecord (pressureDraw ni ri) (demandDraw ni ri) r)))
      pipes := s.pipes.mapIdx (fun li p =>
        (p.1, p.2.mapIdx (fun ri r => injectPipeRecord (flowDraw li ri) r)))
      timestamps := s.timestamps }

/-- A concrete single-leak scenario matching the spec's labeling example:
leak node "42", window [7200, 25200]. -/
def scenario42 : LeakScenario :=
  { scenario_id := 1
    leak_node := "42"
    leak_area_m2 := 1/2000
    start_time_s := 7200
    duration_s := 18000
    end_time_s := 25200
    discharge_coeff := 3/4 }

/-- A family of concrete single-leak scenarios with distinct ids, for batch
examples. -/
def mkTestScenario (i : ℕ) : LeakScenario :=
  { scenario_id := i
    leak_node := toString i
    leak_area_m2 := 1/1000
    start_time_s := 7200
    duration_s := 18000
    end_time_s := 25200
    discharge_coeff := 3/4 }

/-- A deterministic stand-in for `random.sample`: the first n elements of
the population (distinct whenever the population is). -/
def sampleTake : List String → ℕ → List String := fun pop n => pop.take n

/-- Constant mid-range random draws for concrete evaluations. -/
def drawsConst : ScenarioDraws :=
  { area := fun _ => 1/1000, uStart := fun _ => 1/2, uDur := fun _ => 1/2 }

/-- All-zero random draws (every `random()` call returns 0). -/
def drawsZero : ScenarioDraws :=
  { area := fun _ => 1/1000, uStart := fun _ => 0, uDur := fun _ => 0 }

/-- A concrete generator configuration with three eligible nodes and
benign time ranges (start 1-6 h, duration 2-23 h). -/
def cfgThreeNodes : LeakScenarioGeneratorCfg :=
  { leak_nodes := ["11", "22", "33"]
    leak_area_min := 1/10000
    leak_area_max := 1/100
    start_h_min := 1
    start_h_max := 6
    duration_h_min := 2
    duration_h_max := 23
    discharge_coeff := 3/4
    leaks_per_scenario := 1 }

/-- A configuration on which the window-containment guarantee fails: the
leak may only start at hour 23 of a 24 h simulation but the minimum
duration is 2 h. -/
def cfgLateStart : LeakScenarioGeneratorCfg :=
  { leak_nodes := ["n1"]
    leak_area_min := 1/10000
    leak_area_max := 1/100
    start_h_min := 23
    start_h_max := 23
    duration_h_min := 2
    duration_h_max := 5
    discharge_coeff := 3/4
    leaks_per_scenario := 1 }

/-- A concrete multi-leak configuration: four eligible nodes, ten leaks
requested per scenario. -/
def cfgMultiLeak : LeakScenarioGeneratorCfg :=
  { leak_nodes := ["a", "b", "c", "d"]
    leak_area_min := 1/10000
    leak_area_max := 1/100
    start_h_min := 1
    start_h_max := 6
    duration_h_min := 2
    duration_h_max := 23
    discharge_coeff := 3/4
    leaks_per_scenario := 10 }

/-- A concrete node record for export examples. -/
def sampleRecord (t : ℤ) : SimNodeRecord :=
  { timestamp := t, pressure := 30, head := 35, demand := 2, leak_demand := 0 }

/-- One expanded leak instance of the labeling step of
scripts/train_leak_model.py (`metadata_expanded`, lines 120-147): scenario
id, the metadata's leak node and the closed leak window. -/
structure LeakInstance where
  scenario_id : ℕ
  leak_node : String
  start_time_s : ℤ
  end_time_s : ℤ
deriving DecidableEq, Repr

/-- Whether the loaded `metadata.csv` carries the multi-leak columns
`leak_nodes` / `n_leaks` (train_leak_model.py line 122): `to_dict` writes
those keys exactly when the scenario's `leak_nodes` list is non-empty, and
a CSV column exists when some record carries the key. -/
def metadataHasMultiLeakColumns (batch : List LeakScenario) : Bool :=
  batch.any (fun sc => match sc.leak_nodes with
    | some ns => !ns.isEmpty
    | none => false)

/-- The per-record expansion of the multi-leak branch of
train_leak_model.py (lines 124-141): one `LeakInstance` per entry of
`leak_nodes`, indexing `leak_start_times_s` / `leak_end_times_s` in
parallel.  (A record lacking the lists would raise in Python's
`enumerate(eval(...))`; it contributes no instances here, and the theorems
exclude such mixed batches by hypothesis.) -/
def expandScenarioLeaks (sc : LeakScenario) : List LeakInstance :=
  match sc.leak_nodes with
  | some ns => (List.range ns.length).map (fun i =>
      { scenario_id := sc.scenario_id
        leak_node := ns.getD i ""
        start_time_s := (sc.leak_start_times_s.getD []).getD i 0
        end_time_s := (sc.leak_end_times_s.getD []).getD i 0 })
  | none => []

/-- `metadata_expanded` of train_leak_model.py: when the multi-leak columns
are present every record's leak list is expanded, otherwise one instance
per record from the primary scalar columns `leak_node` / `start_time_s` /
`end_time_s`. -/
def expandMetadata (batch : List LeakScenario) : List LeakInstance :=
  if metadataHasMultiLeakColumns batch then batch.flatMap expandScenarioLeaks
  else batch.map (fun sc =>
    { scenario_id := sc.scenario_id
      leak_node := sc.leak_node
      start_time_s := sc.start_time_s
      end_time_s := sc.end_time_s })

/-- The `has_leak` label scripts/train_leak_model.py (lines 149-196)
assigns to an exported node-timestamp row: the per-scenario leak lookup
stores the metadata's leak node float-suffix-normalized
(`str(int(float(ln))) if '.' in str(ln) else str(ln)`, line 154) while the
row's `node_id` stays raw (`astype(str)`, line 160), and the row is
positive iff some leak instance of its scenario has that normalized node
equal to the raw `node_id` and the timestamp inside the closed window. -/
def hasLeakLabel (batch : List LeakScenario) (scenarioId : ℕ)
    (nodeId : String) (t : ℤ) : Bool :=
  (expandMetadata batch).any (fun L =>
    decide (L.scenario_id = scenarioId)
      && decide (normalizeNodeId L.leak_node = nodeId)
      && decide (L.start_time_s ≤ t) && decide (t ≤ L.end_time_s))

/-- A concrete single-leak scenario whose leak node carries a float
suffix, window [7200, 25200]. -/
def scenarioDotted : LeakScenario :=
  { scenario_id := 1
    leak_node := "1359.0"
    leak_area_m2 := 1/2000
    start_time_s := 7200
    duration_s := 18000
    end_time_s := 25200
    discharge_coeff := 3/4 }

/-- A concrete ten-scenario batch with ids 1..10. -/
def witnessBatch : List LeakScenario := (List.range 10).map (fun i => mkTestScenario (i + 1))

/-- A concrete run function that makes scenario #4 raise
`SimulationDivergenceError` and every other scenario succeed. -/
def witnessRunFn : LeakScenario → Except String ℕ := fun sc =>
  if sc.scenario_id = 4 then Except.error "SimulationDivergenceError" else Except.ok 0

/-! Helper lemmas. -/

theorem createScenario_leak_node (cfg : LeakScenarioGeneratorCfg)
    (sample : List String → ℕ → List String) (d : ScenarioDraws)
    (scenarioId : ℕ) (leakNode : String) (durationH : ℚ) :
    (createScenario cfg sample d scenarioId leakNode durationH).leak_node = leakNode := by
  by_cases h : cfg.leaks_per_scenario = 1 <;> simp [createScenario, h]

theorem runRecordOf_success {DF : Type} (sc : LeakScenario) (r : Except String DF) :
    (runRecordOf sc r).success = r.isOk := by
  cases r <;> rfl

theorem runRecordOf_scenario_id {DF : Type} (sc : LeakScenario) (r : Except String DF) :
    (runRecordOf sc r).scenario_id = sc.scenario_id := by
  cases r <;> rfl

theorem runSequential_filter_success {DF : Type}
    (runFn : LeakScenario → Except String DF) (scenarios : List LeakScenario) :
    (runSequential runFn scenarios).filter (fun r => r.success) =
      (scenarios.filter (fun sc => (runFn sc).isOk)).map
        (fun sc => runRecordOf sc (runFn sc)) := by
  induction scenarios with
  | nil => rfl
  | cons sc tl ih =>
      simp only [runSequential, List.map_cons, List.filter_cons] at *
      rw [runRecordOf_success]
      by_cases h : (runFn sc).isOk
      · simp [h, ih]
      · simp only [Bool.not_eq_true] at h
        simp [h, ih]

/-! ### C10 — noise injection -/

/-- C10: when noise is enabled, node demand is clipped at 0 after the
Gaussian draw is added (like pressure) and the pre-noise value is stored
under `demand_raw` (pressure under `pressure_raw`); pipe flow is not
clipped — the noisy flow is exactly `flow + draw`, possibly negative — with
the original under `flow_raw`; when disabled the series is returned
unchanged, so no `_raw` keys are added. -/
theorem noise_clipping_and_raw_keys (cfg : NoiseInjectorCfg)
    (pressureDraw demandDraw flowDraw : ℕ → ℕ → ℚ) (s : SimulationSeries) :
    (cfg.enabled = false → injectNoise cfg pressureDraw demandDraw flowDraw s = s) ∧
    (∀ pN dN r p, r.pressure = some p →
      (injectNodeRecord pN dN r).pressure = some (max 0 (p + pN)) ∧
      (injectNodeRecord pN dN r).pressure_raw = some p) ∧
    (∀ pN dN r dm, r.demand = some dm →
      (injectNodeRecord pN dN r).demand = some (max 0 (dm + dN)) ∧
      (injectNodeRecord pN dN r).demand_raw = some dm) ∧
    (∀ fN r f, r.flow = some f →
      (injectPipeRecord fN r).flow = some (f + fN) ∧
      (injectPipeRecord fN r).flow_raw = some f) ∧
    (cfg.enabled = true →
      injectNoise cfg pressureDraw demandDraw flowDraw s =
        { nodes := s.nodes.mapIdx (fun ni p =>
            (p.1, p.2.mapIdx (fun ri r =>
              injectNodeRecord (pressureDraw ni ri) (demandDraw ni ri) r)))
          pipes := s.pipes.mapIdx (fun li p =>
            (p.1, p.2.mapIdx (fun ri r => injectPipeRecord (flowDraw li ri) r)))
          timestamps := s.timestamps }) := by
  refine ⟨?_, ?_, ?_, ?_, ?_⟩
  · intro h
    simp [injectNoise, h]
  · intro pN dN r p hp
    unfold injectNodeRecord
    rw [hp]
    cases hd : r.demand <;> simp
  · intro pN dN r dm hd
    unfold injectNodeRecord
    cases hp : r.pressure <;> simp [hd]
  · intro fN r f hf
    unfold injectPipeRecord
    rw [hf]
    exact ⟨rfl, rfl⟩
  · intro h
    simp [injectNoise, h]

/-- C10 witness: a concrete record with pressure 10, demand 1 and flow 1
under draws -12, -3 and -5: demand and pressure are clipped to 0 with the
originals kept under the raw keys, while the pipe flow becomes -4
(negative, unclipped); and a disabled injector returns the series
unchanged. -/
theorem noise_clipping_and_raw_keys_witness :
    (injectNodeRecord (-12) (-3)
        { timestamp := 0, pressure := some 10, head := some 12,
          demand := some 1, leak_demand := some 0 }).pressure = some 0 ∧
    (injectNodeRecord (-12) (-3)
        { timestamp := 0, pressure := some 10, head := some 12,
          demand := some 1, leak_demand := some 0 }).demand = some 0 ∧
    (injectNodeRecord (-12) (-3)
        { timestamp := 0, pressure := some 10, head := some 12,
          demand := some 1, leak_demand := some 0 }).demand_raw = some 1 ∧
    (injectPipeRecord (-5) { timestamp := 0, flow := some 1 }).flow = some (-4) ∧
    injectNoise { pressure_sigma := 1, flow_sigma := 1, enabled := false }
        (fun _ _ => 5) (fun _ _ => 5) (fun _ _ => 5)
        { nodes := [], pipes := [], timestamps := [0] } =
      { nodes := [], pipes := [], timestamps := [0] } := by
  have h := noise_clipping_and_raw_keys
    { pressure_sigma := 1, flow_sigma := 1, enabled := false }
    (fun _ _ => 5) (fun _ _ => 5) (fun _ _ => 5)
    { nodes := [], pipes := [], timestamps := [0] }
  refine ⟨?_, ?_, ?_, ?_, h.1 rfl⟩
  · have := (h.2.1 (-12) (-3)
      { timestamp := 0, pressure := some 10, head := some 12,
        demand := some 1, leak_demand := some 0 } 10 rfl).1
    rw [this]
    norm_num
  · have := (h.2.2.1 (-12) (-3)
      { timestamp := 0, pressure := some 10, head := some 12,
        demand := some 1, leak_demand := some 0 } 1 rfl).1
    rw [this]
    norm_num
  · exact (h.2.2.1 (-12) (-3)
      { timestamp := 0, pressure := some 10, head := some 12,
        demand := some 1, leak_demand := some 0 } 1 rfl).2
  · have := (h.2.2.2.1 (-5) { timestamp := 0, flow := some 1 } 1 rfl).1
    rw [this]
    norm_num

/-! ### C6 — per-scenario failure isolation -/

/-- C6: a raising scenario run is caught and recorded — each entry of the
result list depends only on its own scenario's run; the summary's
successful/failed counts partition the scenario set (successful counts
exactly the scenarios whose run succeeded); no dataset partition is
exported for a failed scenario; and only a template-load failure is
batch-fatal (`DatasetGenerator.__init__` raises exactly when the load
fails). -/
theorem scenario_failure_isolation {DF : Type}
    (runFn : LeakScenario → Except String DF) (scenarios : List LeakScenario)
    (hids : (scenarios.map (fun sc => sc.scenario_id)).Nodup) :
    (runSequential runFn scenarios).length = scenarios.length ∧
    (∀ i (h : i < scenarios.length) (h2 : i < (runSequential runFn scenarios).length),
      (runSequential runFn scenarios)[i] =
        runRecordOf scenarios[i] (runFn scenarios[i])) ∧
    (summarizeResults (runSequential runFn scenarios)).successful +
        (summarizeResults (runSequential runFn scenarios)).failed =
      scenarios.length ∧
    (summarizeResults (runSequential runFn scenarios)).successful =
      (scenarios.filter (fun sc => (runFn sc).isOk)).length ∧
    (∀ sc ∈ scenarios, (runFn sc).isOk = false →
      sc.scenario_id ∉ exportedScenarioIds (runSequential runFn scenarios)) ∧
    (∀ loadResult : Except String Unit,
      (datasetGeneratorInit loadResult).isOk = loadResult.isOk) := by
  have hlen : (runSequential runFn scenarios).length = scenarios.length := by
    simp [runSequential]
  have hfilter := runSequential_filter_success runFn scenarios
  have hsucc : (summarizeResults (runSequential runFn scenarios)).successful =
      (scenarios.filter (fun sc => (runFn sc).isOk)).length := by
    simp [summarizeResults, hfilter]
  refine ⟨hlen, ?_, ?_, hsucc, ?_, ?_⟩
  · intro i h h2
    simp [runSequential]
  · have hle : ((runSequential runFn scenarios).filter (fun r => r.success)).length ≤
        (runSequential runFn scenarios).length := List.length_filter_le _ _
    simp only [summarizeResults]
    omega
  · intro sc hsc hfail hmem
    unfold exportedScenarioIds at hmem
    rw [hfilter] at hmem
    rw [List.map_map] at hmem
    obtain ⟨sc', hsc', heq⟩ := List.mem_map.mp hmem
    have hsc'mem : sc' ∈ scenarios := (List.mem_filter.mp hsc').1
    have hsc'ok : (runFn sc').isOk = true := (List.mem_filter.mp hsc').2
    have hid : sc'.scenario_id = sc.scenario_id := by
      simpa [Function.comp, runRecordOf_scenario_id] using heq
    have heqsc : sc' = sc := List.inj_on_of_nodup_map hids hsc'mem hsc hid
    rw [heqsc] at hsc'ok
    rw [hsc'ok] at hfail
    simp at hfail
  · intro loadResult
    cases loadResult <;> rfl

/-- C6 witness: in the concrete 10-scenario batch with scenario #4 forced
to raise, the summary reports 9 successful and 1 failed and no partition is
exported for scenario 4. -/
theorem scenario_failure_isolation_witness :
    (summarizeResults (runSequential witnessRunFn witnessBatch)).successful = 9 ∧
    (summarizeResults (runSequential witnessRunFn witnessBatch)).failed = 1 ∧
    (4 : ℕ) ∉ exportedScenarioIds (runSequential witnessRunFn witnessBatch) := by
  have h := scenario_failure_isolation witnessRunFn witnessBatch (by decide)
  refine ⟨by decide, by decide, ?_⟩
  exact h.2.2.2.2.1 (mkTestScenario 4)
    (List.mem_map.mpr ⟨3, by decide, rfl⟩) rfl

/-! ### C7 — worker-to-coordinator boundary -/

/-- C7 counterexample: the parallel worker of dataset_generator.py returns
the full simulation result across the worker-to-coordinator boundary — on a
successful run its return record carries `df = some result`, not a small
outcome-only record. -/
theorem datasetGen_worker_returns_timeseries :
    (datasetGenRunScenarioWorker (mkTestScenario 1) true
      (Except.ok 7 : Except String ℕ)).df = some 7 := rfl

/-- C7 (amended): the parallel worker of leak_simulator.py satisfies the
claim — for every input it exports the result inside the worker and returns
a record with `df = none` (never the time series), carrying only the
success flag, the scenario id, an optional error and the scenario
metadata.  The dataset_generator.py worker does not. -/
theorem leakSim_worker_returns_no_timeseries {DF : Type} (sc : LeakScenario)
    (loadOk : Bool) (runResult : Except String DF)
    (exportFn : DF → Except String Unit) :
    (leakSimRunScenarioWorker sc loadOk runResult exportFn).df = none ∧
    (leakSimRunScenarioWorker sc loadOk runResult exportFn).scenario_id =
      sc.scenario_id ∧
    (leakSimRunScenarioWorker sc loadOk runResult exportFn).metadata = some sc := by
  unfold leakSimRunScenarioWorker
  cases loadOk
  · simp
  · cases runResult with
    | error e => simp
    | ok res =>
        cases hex : exportFn res <;> simp [hex]

/-! ### C8 — node-partition ordering and (missing) deduplication -/

/-- C8 (amended): the node partition written by `_export_nodes` is sorted
by `(timestamp, node_id)`; it is free of duplicate `(node_id, timestamp)`
pairs whenever the node names are distinct and each node's input series has
distinct timestamps — the source sorts but performs no deduplication, so
duplicates in the input survive to the output. -/
theorem export_nodes_sorted_and_unique (scenarioId : ℕ)
    (nodesData : List (String × List SimNodeRecord))
    (hnames : (nodesData.map Prod.fst).Nodup)
    (hts : ∀ p ∈ nodesData, (p.2.map (fun r => r.timestamp)).Nodup) :
    List.Sorted nodeRowLE (exportNodes scenarioId nodesData) ∧
    ((exportNodes scenarioId nodesData).map nodeRowKey).Nodup := by
  refine ⟨List.sorted_insertionSort nodeRowLE _, ?_⟩
  have hperm : ((exportNodes scenarioId nodesData).map nodeRowKey).Perm
      ((nodesData.flatMap (fun p => p.2.map (mkExportedNodeRow scenarioId p.1))).map
        nodeRowKey) :=
    (List.perm_insertionSort nodeRowLE _).map nodeRowKey
  rw [hperm.nodup_iff]
  rw [List.map_flatMap]
  rw [List.nodup_flatMap]
  constructor
  · intro p hp
    rw [List.map_map]
    have : (fun r => nodeRowKey (mkExportedNodeRow scenarioId p.1 r)) =
        ((fun t => (p.1, t)) ∘ fun r : SimNodeRecord => r.timestamp) := by
      funext r
      rfl
    show (List.map (nodeRowKey ∘ mkExportedNodeRow scenarioId p.1) p.2).Nodup
    have hcomp : (nodeRowKey ∘ mkExportedNodeRow scenarioId p.1) =
        ((fun t => (p.1, t)) ∘ fun r : SimNodeRecord => r.timestamp) := by
      funext r
      rfl
    rw [hcomp, ← List.map_map]
    exact (hts p hp).map (fun a b h => by simpa using h)
  · have hpair : List.Pairwise (fun p q : String × List SimNodeRecord => p.1 ≠ q.1)
        nodesData := List.pairwise_map.mp hnames
    refine hpair.imp ?_
    intro p q hne
    intro a ha hb
    obtain ⟨r1, hr1mem, hr1⟩ := List.mem_map.mp ha
    obtain ⟨r2, hr2mem, hr2⟩ := List.mem_map.mp hb
    obtain ⟨s1, _, hs1⟩ := List.mem_map.mp hr1mem
    obtain ⟨s2, _, hs2⟩ := List.mem_map.mp hr2mem
    apply hne
    have h1 : a.1 = p.1 := by rw [← hr1, ← hs1]; rfl
    have h2 : a.1 = q.1 := by rw [← hr2, ← hs2]; rfl
    rw [← h1, h2]

/-- C8 witness: a concrete two-node input with distinct timestamps yields a
sorted, duplicate-free partition. -/
theorem export_nodes_sorted_and_unique_witness :
    List.Sorted nodeRowLE (exportNodes 1
      [("B", [sampleRecord 0, sampleRecord 3600]), ("A", [sampleRecord 0])]) ∧
    ((exportNodes 1
      [("B", [sampleRecord 0, sampleRecord 3600]), ("A", [sampleRecord 0])]).map
        nodeRowKey).Nodup := by
  exact export_nodes_sorted_and_unique 1
    [("B", [sampleRecord 0, sampleRecord 3600]), ("A", [sampleRecord 0])]
    (by decide) (by decide)

/-- C8 counterexample: with a duplicated timestamp in one node's input
series the exported partition contains the `(node_id, timestamp)` pair
twice — `_export_nodes` has no deduplication step, refuting the claim that
the series is deduplicated before export. -/
theorem export_nodes_no_dedup :
    ¬ ((exportNodes 1 [("A", [sampleRecord 0, sampleRecord 0])]).map
        nodeRowKey).Nodup := by
  intro h
  have hperm : ((exportNodes 1 [("A", [sampleRecord 0, sampleRecord 0])]).map
      nodeRowKey).Perm
      (([("A", [sampleRecord 0, sampleRecord 0])].flatMap
        (fun p => p.2.map (mkExportedNodeRow 1 p.1))).map nodeRowKey) :=
    (List.perm_insertionSort nodeRowLE _).map nodeRowKey
  have heval : (([("A", [sampleRecord 0, sampleRecord 0])].flatMap
      (fun p => p.2.map (mkExportedNodeRow 1 p.1))).map nodeRowKey) =
      [("A", 0), ("A", 0)] := rfl
  rw [hperm.nodup_iff, heval] at h
  simp at h

/-! ### C2 — ensure-all-nodes coverage -/

theorem generateScenarios_true_eq (cfg : LeakScenarioGeneratorCfg)
    (sample : List String → ℕ → List String)
    (shuffled : List String) (pick : ℕ → ℕ) (draws : ℕ → ScenarioDraws)
    (nScenarios : ℕ) (durationH : ℚ)
    (hlen : shuffled.length = cfg.leak_nodes.length) :
    generateScenarios cfg sample shuffled pick draws nScenarios durationH true =
      shuffled.mapIdx
        (fun i node => createScenario cfg sample (draws i) (i + 1) node durationH) ++
      (List.range (max nScenarios cfg.leak_nodes.length - cfg.leak_nodes.length)).map
        (fun i => createScenario cfg sample (draws (cfg.leak_nodes.length + i))
          (cfg.leak_nodes.length + i + 1) (cfg.leak_nodes.getD (pick i) "") durationH) := by
  unfold generateScenarios
  by_cases hc : nScenarios < cfg.leak_nodes.length
  · have htake : shuffled.take cfg.leak_nodes.length = shuffled :=
      List.take_of_length_le (le_of_eq hlen)
    have hmax : max nScenarios cfg.leak_nodes.length = cfg.leak_nodes.length := by
      omega
    simp [hc, htake, hmax, hlen]
  · have hle : cfg.leak_nodes.length ≤ nScenarios := by omega
    have htake : shuffled.take nScenarios = shuffled :=
      List.take_of_length_le (by omega)
    have hmax : max nScenarios cfg.leak_nodes.length = nScenarios := by omega
    simp [hc, htake, hmax, hlen]

/-- C2: with `ensure_all_nodes = True` over a non-empty eligible list, the
batch size is raised to `max n_scenarios |nodes|`; the primary leak nodes
of the first `|nodes|` scenarios are exactly the shuffled eligible list —
a permutation of the eligible nodes, hence each eligible node exactly once
when the list is duplicate-free — and every remaining scenario (the
`n_scenarios - |nodes|` phase-2 fills) draws its node from the eligible
list (with replacement, via `random.choice`). -/
theorem ensure_all_nodes_coverage (cfg : LeakScenarioGeneratorCfg)
    (sample : List String → ℕ → List String)
    (shuffled : List String) (pick : ℕ → ℕ) (draws : ℕ → ScenarioDraws)
    (nScenarios : ℕ) (durationH : ℚ)
    (hperm : shuffled.Perm cfg.leak_nodes)
    (hpick : ∀ i, pick i < cfg.leak_nodes.length) :
    (generateScenarios cfg sample shuffled pick draws nScenarios durationH true).length =
      max nScenarios cfg.leak_nodes.length ∧
    ((generateScenarios cfg sample shuffled pick draws nScenarios durationH
        true).take cfg.leak_nodes.length).map (fun sc => sc.leak_node) = shuffled ∧
    (((generateScenarios cfg sample shuffled pick draws nScenarios durationH
        true).take cfg.leak_nodes.length).map (fun sc => sc.leak_node)).Perm
      cfg.leak_nodes ∧
    (cfg.leak_nodes.Nodup → ∀ nd ∈ cfg.leak_nodes,
      (((generateScenarios cfg sample shuffled pick draws nScenarios durationH
          true).take cfg.leak_nodes.length).map (fun sc => sc.leak_node)).count nd
        = 1) ∧
    (∀ sc ∈ (generateScenarios cfg sample shuffled pick draws nScenarios durationH
        true).drop cfg.leak_nodes.length, sc.leak_node ∈ cfg.leak_nodes) ∧
    ((generateScenarios cfg sample shuffled pick draws nScenarios durationH
        true).drop cfg.leak_nodes.length).length =
      nScenarios - cfg.leak_nodes.length := by
  have hlen : shuffled.length = cfg.leak_nodes.length := hperm.length_eq
  rw [generateScenarios_true_eq cfg sample shuffled pick draws nScenarios durationH hlen]
  have hp1len : (shuffled.mapIdx
      (fun i node => createScenario cfg sample (draws i) (i + 1) node durationH)).length =
      cfg.leak_nodes.length := by
    rw [List.length_mapIdx, hlen]
  rw [List.take_left' hp1len, List.drop_left' hp1len]
  have hmapeq : (shuffled.mapIdx
      (fun i node => createScenario cfg sample (draws i) (i + 1) node durationH)).map
        (fun sc => sc.leak_node) = shuffled := by
    apply List.ext_getElem
    · simp
    · intro i h1 h2
      simp only [List.getElem_map, List.getElem_mapIdx]
      exact createScenario_leak_node cfg sample (draws i) (i + 1) shuffled[i] durationH
  refine ⟨?_, hmapeq, ?_, ?_, ?_, ?_⟩
  · simp only [List.length_append, List.length_mapIdx, List.length_map,
      List.length_range, hlen]
    omega
  · rw [hmapeq]
    exact hperm
  · intro hnodup nd hnd
    rw [hmapeq, hperm.count_eq]
    exact List.count_eq_one_of_mem hnodup hnd
  · intro sc hsc
    obtain ⟨i, hi, heq⟩ := List.mem_map.mp hsc
    rw [← heq, createScenario_leak_node]
    rw [List.getD_eq_getElem cfg.leak_nodes "" (hpick i)]
    exact List.getElem_mem _
  · simp only [List.length_map, List.length_range]
    omega

/-- C2 witness: three eligible nodes, five requested scenarios — the batch
has five scenarios, the first three primary nodes are the shuffled eligible
nodes (each exactly once), and both phase-2 scenarios use eligible nodes. -/
theorem ensure_all_nodes_coverage_witness :
    (generateScenarios cfgThreeNodes sampleTake ["22", "33", "11"] (fun _ => 0)
        (fun _ => drawsConst) 5 24 true).length = 5 ∧
    ((generateScenarios cfgThreeNodes sampleTake ["22", "33", "11"] (fun _ => 0)
        (fun _ => drawsConst) 5 24 true).take
          cfgThreeNodes.leak_nodes.length).map (fun sc => sc.leak_node) =
      ["22", "33", "11"] ∧
    (∀ sc ∈ (generateScenarios cfgThreeNodes sampleTake ["22", "33", "11"]
        (fun _ => 0) (fun _ => drawsConst) 5 24 true).drop
          cfgThreeNodes.leak_nodes.length,
      sc.leak_node ∈ cfgThreeNodes.leak_nodes) := by
  obtain ⟨h1, h2, h3, h4, h5, h6⟩ := ensure_all_nodes_coverage cfgThreeNodes
    sampleTake ["22", "33", "11"] (fun _ => 0) (fun _ => drawsConst) 5 24
    (by decide) (fun i => by show 0 < 3; decide)
  exact ⟨h1.trans (by decide), h2, h5⟩

/-! ### C4 — leak-window sampling bounds -/

theorem pyInt_of_nonneg (q : ℚ) (h : 0 ≤ q) : pyInt q = ⌊q⌋ := by
  unfold pyInt
  rw [if_pos h]
  rfl

/-- C4 (amended): whenever the two sampling intervals are non-degenerate —
`start_h_min ≤ min(start_h_max, duration_h - 1)` and `duration_h_min ≤
min(duration_h_max, duration_h - start_h)` for the realized start — and the
configured minima are non-negative, the sampled start and duration lie in
the stated intervals (up to the floor of the seconds conversion) and
`end_s ≤ duration_h * 3600` always holds.  Without the second hypothesis
the guarantee fails (see the counterexample): `random.uniform(a, b)` with
`a > b` can return values above `b`. -/
theorem leak_window_containment (cfg : LeakScenarioGeneratorCfg)
    (durationH u1 u2 : ℚ)
    (hu1a : 0 ≤ u1) (hu1b : u1 ≤ 1) (hu2a : 0 ≤ u2) (hu2b : u2 ≤ 1)
    (hs0 : 0 ≤ cfg.start_h_min)
    (hsle : cfg.start_h_min ≤ min cfg.start_h_max (durationH - 1))
    (hd0 : 0 ≤ cfg.duration_h_min)
    (hdle : cfg.duration_h_min ≤ min cfg.duration_h_max
      (durationH - pyUniform cfg.start_h_min (min cfg.start_h_max (durationH - 1)) u1)) :
    0 ≤ (sampleWindow cfg durationH u1 u2).start_s ∧
    cfg.start_h_min * 3600 - 1 < ((sampleWindow cfg durationH u1 u2).start_s : ℚ) ∧
    ((sampleWindow cfg durationH u1 u2).start_s : ℚ) ≤
      min cfg.start_h_max (durationH - 1) * 3600 ∧
    0 ≤ (sampleWindow cfg durationH u1 u2).dur_s ∧
    cfg.duration_h_min * 3600 - 1 < ((sampleWindow cfg durationH u1 u2).dur_s : ℚ) ∧
    ((sampleWindow cfg durationH u1 u2).dur_s : ℚ) ≤ cfg.duration_h_max * 3600 ∧
    (sampleWindow cfg durationH u1 u2).end_s =
      (sampleWindow cfg durationH u1 u2).start_s +
        (sampleWindow cfg durationH u1 u2).dur_s ∧
    ((sampleWindow cfg durationH u1 u2).end_s : ℚ) ≤ durationH * 3600 := by
  set sh := pyUniform cfg.start_h_min (min cfg.start_h_max (durationH - 1)) u1 with hshdef
  set maxD := min cfg.duration_h_max (durationH - sh) with hmaxDdef
  set dh := pyUniform cfg.duration_h_min maxD u2 with hdhdef
  have hble : cfg.start_h_min ≤ min cfg.start_h_max (durationH - 1) := hsle
  have hsh1 : cfg.start_h_min ≤ sh := by
    rw [hshdef]
    unfold pyUniform
    nlinarith [mul_nonneg (sub_nonneg.mpr hble) hu1a]
  have hsh2 : sh ≤ min cfg.start_h_max (durationH - 1) := by
    rw [hshdef]
    unfold pyUniform
    nlinarith [mul_le_of_le_one_right (sub_nonneg.mpr hble) hu1b]
  have hsh0 : 0 ≤ sh := hs0.trans hsh1
  have hdh1 : cfg.duration_h_min ≤ dh := by
    rw [hdhdef]
    unfold pyUniform
    nlinarith [mul_nonneg (sub_nonneg.mpr hdle) hu2a]
  have hdh2 : dh ≤ maxD := by
    rw [hdhdef]
    unfold pyUniform
    nlinarith [mul_le_of_le_one_right (sub_nonneg.mpr hdle) hu2b]
  have hdh3 : dh ≤ cfg.duration_h_max := hdh2.trans (min_le_left _ _)
  have hdh4 : dh ≤ durationH - sh := hdh2.trans (min_le_right _ _)
  have hdh0 : 0 ≤ dh := hd0.trans hdh1
  have hstart : (sampleWindow cfg durationH u1 u2).start_s = pyInt (sh * 3600) := rfl
  have hdur : (sampleWindow cfg durationH u1 u2).dur_s = pyInt (dh * 3600) := rfl
  have hend : (sampleWindow cfg durationH u1 u2).end_s =
      (sampleWindow cfg durationH u1 u2).start_s +
        (sampleWindow cfg durationH u1 u2).dur_s := rfl
  have hs3600 : 0 ≤ sh * 3600 := by nlinarith
  have hd3600 : 0 ≤ dh * 3600 := by nlinarith
  rw [hstart, hdur, pyInt_of_nonneg _ hs3600, pyInt_of_nonneg _ hd3600] at *
  refine ⟨?_, ?_, ?_, ?_, ?_, ?_, hend, ?_⟩
  · exact Int.le_floor.mpr (by push_cast; linarith)
  · have h1 := Int.sub_one_lt_floor (sh * 3600)
    have h2 : cfg.start_h_min * 3600 ≤ sh * 3600 := by nlinarith
    linarith
  · have h1 := Int.floor_le (sh * 3600)
    have h2 : sh * 3600 ≤ min cfg.start_h_max (durationH - 1) * 3600 := by nlinarith
    linarith
  · exact Int.le_floor.mpr (by push_cast; linarith)
  · have h1 := Int.sub_one_lt_floor (dh * 3600)
    have h2 : cfg.duration_h_min * 3600 ≤ dh * 3600 := by nlinarith
    linarith
  · have h1 := Int.floor_le (dh * 3600)
    have h2 : dh * 3600 ≤ cfg.duration_h_max * 3600 := by nlinarith
    linarith
  · rw [hend]
    push_cast
    have h1 := Int.floor_le (sh * 3600)
    have h2 := Int.floor_le (dh * 3600)
    nlinarith

theorem pyInt_intCast (z : ℤ) : pyInt ((z : ℚ)) = z := by
  unfold pyInt
  have h1 : ((z : ℚ)).floor = ⌊(z : ℚ)⌋ := rfl
  have h2 : ((z : ℚ)).ceil = z := by
    simp [Rat.ceil, Rat.den_intCast, Rat.num_intCast]
  by_cases h : (0 : ℚ) ≤ (z : ℚ)
  · rw [if_pos h, h1, Int.floor_intCast]
  · rw [if_neg h, h2]

/-- C4 witness: with start range 1-6 h, duration range 2-23 h, a 24 h
simulation and mid-range draws, the sampled window satisfies the
containment guarantee. -/
theorem leak_window_containment_witness :
    0 ≤ (sampleWindow cfgThreeNodes 24 (1/2) (1/2)).start_s ∧
    ((sampleWindow cfgThreeNodes 24 (1/2) (1/2)).end_s : ℚ) ≤ 24 * 3600 := by
  obtain ⟨h1, _, _, _, _, _, _, h8⟩ := leak_window_containment cfgThreeNodes 24
    (1/2) (1/2) (by norm_num) (by norm_num) (by norm_num) (by norm_num)
    (by norm_num [cfgThreeNodes]) (by norm_num [cfgThreeNodes, min_def])
    (by norm_num [cfgThreeNodes])
    (by norm_num [cfgThreeNodes, pyUniform, min_def])
  exact ⟨h1, h8⟩

/-- C4 counterexample: with start range fixed at hour 23 of a 24 h
simulation and minimum duration 2 h (`cfgLateStart`), the all-zero draws
produce `end_s = 90000 > 86400 = simulation_duration_s` — the claimed
unconditional guarantee `end_s ≤ simulation_duration_s` is false: Python's
`random.uniform(2, 1)` on the inverted interval returns 2. -/
theorem leak_window_containment_counterexample :
    (createScenario cfgLateStart sampleTake drawsZero 1 "n1" 24).end_time_s = 90000 ∧
    (86400 : ℤ) < (createScenario cfgLateStart sampleTake drawsZero 1 "n1" 24).end_time_s := by
  have h0 : (createScenario cfgLateStart sampleTake drawsZero 1 "n1" 24).end_time_s =
      (sampleWindow cfgLateStart 24 0 0).end_s := rfl
  have hsh : pyUniform cfgLateStart.start_h_min
      (min cfgLateStart.start_h_max ((24 : ℚ) - 1)) 0 = 23 := by
    norm_num [cfgLateStart, pyUniform, min_def]
  have hstart : (sampleWindow cfgLateStart 24 0 0).start_s =
      pyInt (pyUniform cfgLateStart.start_h_min
        (min cfgLateStart.start_h_max ((24 : ℚ) - 1)) 0 * 3600) := rfl
  have hdur : (sampleWindow cfgLateStart 24 0 0).dur_s =
      pyInt (pyUniform cfgLateStart.duration_h_min
        (min cfgLateStart.duration_h_max
          ((24 : ℚ) - pyUniform cfgLateStart.start_h_min
            (min cfgLateStart.start_h_max ((24 : ℚ) - 1)) 0)) 0 * 3600) := rfl
  have hdh : pyUniform cfgLateStart.duration_h_min
      (min cfgLateStart.duration_h_max
        ((24 : ℚ) - pyUniform cfgLateStart.start_h_min
          (min cfgLateStart.start_h_max ((24 : ℚ) - 1)) 0)) 0 = 2 := by
    rw [hsh]
    norm_num [cfgLateStart, pyUniform, min_def]
  have hend : (sampleWindow cfgLateStart 24 0 0).end_s =
      (sampleWindow cfgLateStart 24 0 0).start_s +
        (sampleWindow cfgLateStart 24 0 0).dur_s := rfl
  have hs : (sampleWindow cfgLateStart 24 0 0).start_s = 82800 := by
    rw [hstart, hsh]
    have : (23 : ℚ) * 3600 = ((82800 : ℤ) : ℚ) := by norm_num
    rw [this, pyInt_intCast]
  have hd : (sampleWindow cfgLateStart 24 0 0).dur_s = 7200 := by
    rw [hdur, hdh]
    have : (2 : ℚ) * 3600 = ((7200 : ℤ) : ℚ) := by norm_num
    rw [this, pyInt_intCast]
  rw [h0, hend, hs, hd]
  norm_num

/-! ### C5 — multi-leak scenarios: distinct nodes, primary first -/

/-- C5: in the multi-leak path, the scenario's leak-node list starts with
the originally selected primary node, its `min(leaks_per_scenario - 1,
|eligible| - 1)` additional nodes are drawn without replacement from the
eligible set minus the primary (so all node ids are pairwise distinct and
a shortage of eligible nodes merely reduces the count — the call never
raises), and the resulting scenario is well-formed with every leak carrying
its own entry in the per-leak area/start/duration/end lists. -/
theorem multi_leak_distinctness (cfg : LeakScenarioGeneratorCfg)
    (sample : List String → ℕ → List String) (d : ScenarioDraws)
    (scenarioId : ℕ) (leakNode : String) (durationH : ℚ)
    (available : List String) (nAdd : ℕ)
    (hk : ¬ cfg.leaks_per_scenario = 1)
    (havail : available = cfg.leak_nodes.filter (fun n => n ≠ leakNode))
    (hnAdd : nAdd = min (cfg.leaks_per_scenario - 1) available.length)
    (hlen : (sample available nAdd).length = nAdd)
    (hnodup : (sample available nAdd).Nodup)
    (hmem : ∀ x ∈ sample available nAdd, x ∈ available) :
    ∃ l, (createScenario cfg sample d scenarioId leakNode durationH).leak_nodes =
        some l ∧
      l.headD "" = leakNode ∧
      l.Nodup ∧
      l.length = 1 + nAdd ∧
      (createScenario cfg sample d scenarioId leakNode durationH).leak_node =
        leakNode ∧
      scenarioWFb (createScenario cfg sample d scenarioId leakNode durationH) =
        true := by
  subst havail
  subst hnAdd
  have hnotmem : leakNode ∉ sample (cfg.leak_nodes.filter (fun n => n ≠ leakNode))
      (min (cfg.leaks_per_scenario - 1)
        (cfg.leak_nodes.filter (fun n => n ≠ leakNode)).length) := by
    intro hmem'
    have := hmem leakNode hmem'
    have := (List.mem_filter.mp this).2
    simp at this
  refine ⟨leakNode ::
      (if 0 < min (cfg.leaks_per_scenario - 1)
          (cfg.leak_nodes.filter (fun n => n ≠ leakNode)).length then
        sample (cfg.leak_nodes.filter (fun n => n ≠ leakNode))
          (min (cfg.leaks_per_scenario - 1)
            (cfg.leak_nodes.filter (fun n => n ≠ leakNode)).length)
      else []), ?_, ?_, ?_, ?_, ?_, ?_⟩
  · show (createScenario cfg sample d scenarioId leakNode durationH).leak_nodes = _
    unfold createScenario
    rw [if_neg hk]
  · rfl
  · by_cases hpos : 0 < min (cfg.leaks_per_scenario - 1)
        (cfg.leak_nodes.filter (fun n => n ≠ leakNode)).length
    · rw [if_pos hpos]
      exact List.nodup_cons.mpr ⟨hnotmem, hnodup⟩
    · rw [if_neg hpos]
      simp
  · by_cases hpos : 0 < min (cfg.leaks_per_scenario - 1)
        (cfg.leak_nodes.filter (fun n => n ≠ leakNode)).length
    · rw [if_pos hpos, List.length_cons, hlen]
      omega
    · rw [if_neg hpos]
      simp only [List.length_cons, List.length_nil]
      omega
  · exact createScenario_leak_node cfg sample d scenarioId leakNode durationH
  · unfold createScenario
    rw [if_neg hk]
    unfold scenarioWFb
    simp

/-- C5 witness: four eligible nodes with ten leaks requested per scenario —
the leak list is ["b", "a", "c", "d"]: primary first, pairwise distinct,
the additional count reduced to the three available nodes, no error. -/
theorem multi_leak_distinctness_witness :
    ∃ l, (createScenario cfgMultiLeak sampleTake drawsConst 1 "b" 24).leak_nodes =
        some l ∧
      l.headD "" = "b" ∧ l.Nodup ∧ l.length = 4 ∧
      (createScenario cfgMultiLeak sampleTake drawsConst 1 "b" 24).leak_node = "b" := by
  obtain ⟨l, h1, h2, h3, h4, h5, h6⟩ := multi_leak_distinctness cfgMultiLeak
    sampleTake drawsConst 1 "b" 24 ["a", "c", "d"] 3
    (by decide) (by decide) (by decide) (by decide) (by decide) (by decide)
  exact ⟨l, h1, h2, h3, by rw [h4], h5⟩

/-! ### C1 — exact labeling rule -/

theorem scenarioWFb_elim (sc : LeakScenario) (h : scenarioWFb sc = true) :
    (sc.leak_nodes = none ∧ sc.leak_areas_m2 = none ∧
      sc.leak_start_times_s = none ∧ sc.leak_durations_s = none ∧
      sc.leak_end_times_s = none) ∨
    (∃ ns ars ss ds es, sc.leak_nodes = some ns ∧ sc.leak_areas_m2 = some ars ∧
      sc.leak_start_times_s = some ss ∧ sc.leak_durations_s = some ds ∧
      sc.leak_end_times_s = some es ∧
      ns ≠ [] ∧ ars.length = ns.length ∧ ss.length = ns.length ∧
      ds.length = ns.length ∧ es.length = ns.length ∧
      ns.headD "" = sc.leak_node ∧ ars.headD 0 = sc.leak_area_m2 ∧
      ss.headD 0 = sc.start_time_s ∧ ds.headD 0 = sc.duration_s ∧
      es.headD 0 = sc.end_time_s) := by
  rcases hns : sc.leak_nodes with _ | ns <;>
    rcases hars : sc.leak_areas_m2 with _ | ars <;>
      rcases hss : sc.leak_start_times_s with _ | ss <;>
        rcases hds : sc.leak_durations_s with _ | ds <;>
          rcases hes : sc.leak_end_times_s with _ | es <;>
            simp only [scenarioWFb, hns, hars, hss, hds, hes, Bool.and_eq_true,
              decide_eq_true_eq, Bool.not_eq_true',
              List.isEmpty_eq_false] at h <;>
            first
              | exact Or.inl ⟨rfl, rfl, rfl, rfl, rfl⟩
              | exact Or.inl ⟨hns, hars, hss, hds, hes⟩
              | (obtain ⟨⟨⟨⟨⟨⟨⟨⟨⟨h1, h2⟩, h3⟩, h4⟩, h5⟩, h6⟩, h7⟩, h8⟩, h9⟩,
                    h10⟩ := h
                 exact Or.inr ⟨ns, ars, ss, ds, es, hns, hars, hss, hds, hes,
                   h1, h2, h3, h4, h5, h6, h7, h8, h9, h10⟩)
              | (obtain ⟨⟨⟨⟨⟨⟨⟨⟨⟨h1, h2⟩, h3⟩, h4⟩, h5⟩, h6⟩, h7⟩, h8⟩, h9⟩,
                    h10⟩ := h
                 exact Or.inr ⟨ns, ars, ss, ds, es, rfl, rfl, rfl, rfl, rfl,
                   h1, h2, h3, h4, h5, h6, h7, h8, h9, h10⟩)
              | exact absurd h (by simp)

theorem labelRowsFor_eq_map (sc : LeakScenario) (h : scenarioWFb sc = true) :
    labelRowsFor sc = (scenarioLeaks sc).map (fun sp =>
      { scenario_id := sc.scenario_id
        leak_node := sp.node_id
        leak_area_m2 := sp.area_m2
        leak_start_time_s := sp.start_s
        leak_duration_s := sp.duration_s
        leak_end_time_s := sp.end_s
        discharge_coeff := sc.discharge_coeff : LabelRow }) := by
  rcases scenarioWFb_elim sc h with ⟨h1, h2, h3, h4, h5⟩ |
    ⟨ns, ars, ss, ds, es, h1, h2, h3, h4, h5, hne, hlar, hlss, hlds, hles,
      hh1, hh2, hh3, hh4, hh5⟩
  · simp [labelRowsFor, scenarioLeaks, h1, h2, h3, h4, h5, singleLabelRow,
      primaryLeakSpec]
  · have hnsE : ns.isEmpty = false := List.isEmpty_eq_false.mpr hne
    simp only [labelRowsFor, scenarioLeaks, h1, h2, h3, h4, h5, Option.getD_some,
      hnsE, Bool.false_eq_true, if_false]
    by_cases hlen1 : 1 < ns.length
    · rw [if_pos hlen1, List.map_map]
      simp [Function.comp]
    · rw [if_neg hlen1]
      have hpos : 0 < ns.length := List.length_pos.mpr hne
      have hone : ns.length = 1 := by omega
      obtain ⟨n0, hn0⟩ := List.length_eq_one.mp hone
      subst hn0
      obtain ⟨a0, ha0⟩ := List.length_eq_one.mp (by simpa using hlar)
      obtain ⟨s0, hs0⟩ := List.length_eq_one.mp (by simpa using hlss)
      obtain ⟨d0, hd0⟩ := List.length_eq_one.mp (by simpa using hlds)
      obtain ⟨e0, he0⟩ := List.length_eq_one.mp (by simpa using hles)
      subst ha0
      subst hs0
      subst hd0
      subst he0
      simp only [List.headD_cons] at hh1 hh2 hh3 hh4 hh5
      simp [singleLabelRow, hh1, hh2, hh3, hh4, hh5, List.range_succ]

theorem scenarioLeaks_of_none (sc : LeakScenario) (h : sc.leak_nodes = none) :
    scenarioLeaks sc = [primaryLeakSpec sc] := by
  unfold scenarioLeaks
  rcases h2 : sc.leak_areas_m2 <;> rcases h3 : sc.leak_start_times_s <;>
    rcases h4 : sc.leak_durations_s <;> rcases h5 : sc.leak_end_times_s <;>
      simp [h, h2, h3, h4, h5]

theorem expandScenarioLeaks_eq (sc : LeakScenario) (h : scenarioWFb sc = true)
    (hne : sc.leak_nodes ≠ none) :
    expandScenarioLeaks sc = (scenarioLeaks sc).map (fun sp =>
      { scenario_id := sc.scenario_id
        leak_node := sp.node_id
        start_time_s := sp.start_s
        end_time_s := sp.end_s : LeakInstance }) := by
  rcases scenarioWFb_elim sc h with ⟨h1, _, _, _, _⟩ |
    ⟨ns, ars, ss, ds, es, h1, h2, h3, h4, h5, hnemp, _, _, _, _, _, _, _, _, _⟩
  · exact absurd h1 hne
  · have hnsE : ns.isEmpty = false := List.isEmpty_eq_false.mpr hnemp
    unfold expandScenarioLeaks scenarioLeaks
    simp only [h1, h2, h3, h4, h5, Option.getD_some, hnsE, Bool.false_eq_true,
      if_false, List.map_map]
    simp [Function.comp]

theorem expandMetadata_eq (batch : List LeakScenario)
    (hwf : ∀ sc ∈ batch, scenarioWFb sc = true)
    (hfmt : (∀ sc ∈ batch, sc.leak_nodes = none) ∨
      (∀ sc ∈ batch, sc.leak_nodes ≠ none)) :
    expandMetadata batch = batch.flatMap (fun sc => (scenarioLeaks sc).map (fun sp =>
      { scenario_id := sc.scenario_id
        leak_node := sp.node_id
        start_time_s := sp.start_s
        end_time_s := sp.end_s : LeakInstance })) := by
  unfold expandMetadata
  by_cases hflag : metadataHasMultiLeakColumns batch = true
  · rw [if_pos hflag]
    have hall : ∀ sc ∈ batch, sc.leak_nodes ≠ none := by
      rcases hfmt with hnone | hsome
      · exfalso
        unfold metadataHasMultiLeakColumns at hflag
        rw [List.any_eq_true] at hflag
        obtain ⟨sc, hsc, hp⟩ := hflag
        rw [hnone sc hsc] at hp
        simp at hp
      · exact hsome
    clear hfmt hflag
    induction batch with
    | nil => rfl
    | cons hd tl ih =>
        rw [List.flatMap_cons, List.flatMap_cons]
        rw [expandScenarioLeaks_eq hd (hwf hd (List.mem_cons_self _ _))
          (hall hd (List.mem_cons_self _ _))]
        rw [ih (fun sc hsc => hwf sc (List.mem_cons_of_mem _ hsc))
          (fun sc hsc => hall sc (List.mem_cons_of_mem _ hsc))]
  · rw [if_neg hflag]
    have hallnone : ∀ sc ∈ batch, sc.leak_nodes = none := by
      intro sc hsc
      rcases scenarioWFb_elim sc (hwf sc hsc) with ⟨h1, _, _, _, _⟩ |
        ⟨ns, _, _, _, _, h1, _, _, _, _, hnemp, _, _, _, _, _, _, _, _, _⟩
      · exact h1
      · exfalso
        apply hflag
        unfold metadataHasMultiLeakColumns
        rw [List.any_eq_true]
        refine ⟨sc, hsc, ?_⟩
        rw [h1]
        simp [List.isEmpty_eq_false.mpr hnemp]
    clear hfmt hflag hwf
    induction batch with
    | nil => rfl
    | cons hd tl ih =>
        rw [List.map_cons, List.flatMap_cons]
        rw [scenarioLeaks_of_none hd (hallnone hd (List.mem_cons_self _ _))]
        rw [ih (fun sc hsc => hallnone sc (List.mem_cons_of_mem _ hsc))]
        rfl

/-- C1 (amended): the `has_leak` label assigned by train_leak_model.py is
positive iff the row's raw `node_id` equals the float-suffix-normalized
node of some leak of its scenario and the timestamp lies in that leak's
closed window `[start_s, end_s]`, both endpoints inclusive; all other rows
are negative, also with multiple leaks per scenario.  (The batch must not
mix single- and multi-leak metadata formats — a mixed `metadata.csv` makes
the Python expansion raise.)  For dot-free node ids the normalization is
the identity and this is the claimed plain-equality rule; for
float-suffixed leak-node ids the plain-equality rule fails (see the
counterexample). -/
theorem label_rule_normalized (batch : List LeakScenario)
    (hwf : ∀ sc ∈ batch, scenarioWFb sc = true)
    (hfmt : (∀ sc ∈ batch, sc.leak_nodes = none) ∨
      (∀ sc ∈ batch, sc.leak_nodes ≠ none))
    (scenarioId : ℕ) (node : String) (t : ℤ) :
    hasLeakLabel batch scenarioId node t = true ↔
      ∃ sc ∈ batch, sc.scenario_id = scenarioId ∧
        ∃ sp ∈ scenarioLeaks sc, normalizeNodeId sp.node_id = node ∧
          sp.start_s ≤ t ∧ t ≤ sp.end_s := by
  unfold hasLeakLabel
  rw [expandMetadata_eq batch hwf hfmt, List.any_eq_true]
  constructor
  · rintro ⟨L, hL, hP⟩
    obtain ⟨sc, hsc, hLsc⟩ := List.mem_flatMap.mp hL
    obtain ⟨sp, hsp, hspL⟩ := List.mem_map.mp hLsc
    subst hspL
    simp only [Bool.and_eq_true, decide_eq_true_eq] at hP
    exact ⟨sc, hsc, hP.1.1.1, sp, hsp, hP.1.1.2, hP.1.2, hP.2⟩
  · rintro ⟨sc, hsc, hsid, sp, hsp, hnd, h1, h2⟩
    refine ⟨{ scenario_id := sc.scenario_id
              leak_node := sp.node_id
              start_time_s := sp.start_s
              end_time_s := sp.end_s }, ?_, ?_⟩
    · exact List.mem_flatMap.mpr ⟨sc, hsc, List.mem_map.mpr ⟨sp, hsp, rfl⟩⟩
    · simp only [Bool.and_eq_true, decide_eq_true_eq]
      exact ⟨⟨⟨hsid, hnd⟩, h1⟩, h2⟩

/-- C1 counterexample: for a scenario whose leak node id carries a float
suffix ("1359.0", window [7200, 25200]), the claimed plain-equality rule is
false — the row (node_id "1359.0", t = 10000) matches `LeakSpec.node_id`
inside the window, yet train_leak_model.py labels it negative, because the
join normalizes the leak node to "1359" while the row's `node_id` stays
raw. -/
theorem label_rule_plain_equality_fails :
    ¬ (hasLeakLabel [scenarioDotted] 1 "1359.0" 10000 = true ↔
      ∃ sc ∈ [scenarioDotted], sc.scenario_id = 1 ∧
        ∃ sp ∈ scenarioLeaks sc, sp.node_id = "1359.0" ∧
          sp.start_s ≤ 10000 ∧ 10000 ≤ sp.end_s) := by
  intro h
  have hrhs : ∃ sc ∈ [scenarioDotted], sc.scenario_id = 1 ∧
      ∃ sp ∈ scenarioLeaks sc, sp.node_id = "1359.0" ∧
        sp.start_s ≤ 10000 ∧ 10000 ≤ sp.end_s :=
    ⟨scenarioDotted, List.mem_singleton_self _, rfl,
      primaryLeakSpec scenarioDotted, List.mem_singleton_self _, rfl,
      by decide, by decide⟩
  exact absurd (h.mpr hrhs) (by decide)

/-- C1 witness: for the dot-free single-leak scenario on node "42" with
window [7200, 25200] (normalization is the identity), the label marks
(42, 7200) and (42, 25200) positive — both endpoints inclusive — and
(42, 7199), (42, 25201) and (7, 10000) negative. -/
theorem label_rule_normalized_witness :
    hasLeakLabel [scenario42] 1 "42" 7200 = true ∧
    hasLeakLabel [scenario42] 1 "42" 7199 = false ∧
    hasLeakLabel [scenario42] 1 "42" 25200 = true ∧
    hasLeakLabel [scenario42] 1 "42" 25201 = false ∧
    hasLeakLabel [scenario42] 1 "7" 10000 = false := by
  have hwf : ∀ sc ∈ [scenario42], scenarioWFb sc = true := by
    intro sc hsc
    rw [List.mem_singleton] at hsc
    subst hsc
    rfl
  have hfmt : (∀ sc ∈ [scenario42], sc.leak_nodes = none) ∨
      (∀ sc ∈ [scenario42], sc.leak_nodes ≠ none) := by
    left
    intro sc hsc
    rw [List.mem_singleton] at hsc
    subst hsc
    rfl
  refine ⟨?_, by decide, ?_, by decide, by decide⟩
  · exact (label_rule_normalized [scenario42] hwf hfmt 1 "42" 7200).mpr
      ⟨scenario42, List.mem_singleton_self _, rfl, primaryLeakSpec scenario42,
        List.mem_singleton_self _, by decide, by decide, by decide⟩
  · exact (label_rule_normalized [scenario42] hwf hfmt 1 "42" 25200).mpr
      ⟨scenario42, List.mem_singleton_self _, rfl, primaryLeakSpec scenario42,
        List.mem_singleton_self _, by decide, by decide, by decide⟩

/-! ### C3 — orifice-formula estimate and where it applies -/

theorem extractLeakDemand_no_engine (sc : LeakScenario) (node : String)
    (t : ℤ) (pressure : ℝ) (ev : EngineLeakValue)
    (hev : ev = EngineLeakValue.missing ∨ ev = EngineLeakValue.nan ∨
      ev = EngineLeakValue.val 0) :
    extractLeakDemand sc node t pressure ev =
      (if isLeakNodeB sc (normalizeNodeId node) = true then
        match activeLeakArea sc (normalizeNodeId node) t with
        | some area =>
            if 0 < pressure then
              (sc.discharge_coeff : ℝ) * (area : ℝ) * Real.sqrt (2 * 9.81 * pressure)
            else 0
        | none => 0
      else 0) := by
  unfold extractLeakDemand
  rcases hev with h | h | h <;> subst h <;>
    simp only [ite_self, eq_self_iff_true, true_and]

/-- C3: when the Engine reports no usable leak-demand value (absent, NaN or
exactly 0), the exported leak flow at a leak node with an active window and
positive gauge pressure is exactly the orifice estimate
`Cd * A * sqrt(2 * 9.81 * h)`; it is 0 whenever the pressure is
non-positive, and 0 at every node-timestamp pair that is not a leak node
with `t` inside that leak's closed window. -/
theorem orifice_estimate_contract (sc : LeakScenario) (node : String)
    (t : ℤ) (pressure : ℝ) (ev : EngineLeakValue)
    (hev : ev = EngineLeakValue.missing ∨ ev = EngineLeakValue.nan ∨
      ev = EngineLeakValue.val 0) :
    (∀ area : ℚ, isLeakNodeB sc (normalizeNodeId node) = true →
        activeLeakArea sc (normalizeNodeId node) t = some area → 0 < pressure →
        extractLeakDemand sc node t pressure ev =
          (sc.discharge_coeff : ℝ) * (area : ℝ) * Real.sqrt (2 * 9.81 * pressure)) ∧
    (pressure ≤ 0 → extractLeakDemand sc node t pressure ev = 0) ∧
    (isLeakNodeB sc (normalizeNodeId node) = false →
        extractLeakDemand sc node t pressure ev = 0) ∧
    (activeLeakArea sc (normalizeNodeId node) t = none →
        extractLeakDemand sc node t pressure ev = 0) := by
  have hnorm := extractLeakDemand_no_engine sc node t pressure ev hev
  refine ⟨?_, ?_, ?_, ?_⟩
  · intro area hleak hact hp
    rw [hnorm, if_pos hleak, hact]
    simp [hp]
  · intro hp
    rw [hnorm]
    by_cases hleak : isLeakNodeB sc (normalizeNodeId node) = true
    · rw [if_pos hleak]
      cases hact : activeLeakArea sc (normalizeNodeId node) t with
      | none => rfl
      | some area => simp [not_lt.mpr hp]
    · rw [if_neg hleak]
  · intro hleak
    rw [hnorm, if_neg (by simp [hleak])]
  · intro hact
    rw [hnorm, hact]
    by_cases hleak : isLeakNodeB sc (normalizeNodeId node) = true
    · rw [if_pos hleak]
    · rw [if_neg hleak]

/-! ### C9 — Engine value takes precedence over the physics fallback -/

/-- C9: at a leak node, a finite nonzero Engine-reported leak demand is
exported as-is (the physics fallback is skipped); when the Engine value is
absent, NaN or exactly 0, the exported value is exactly the orifice-formula
fallback (nonzero only inside an active window with positive pressure). -/
theorem engine_value_precedence (sc : LeakScenario) (node : String)
    (t : ℤ) (pressure : ℝ) :
    (∀ x : ℝ, isLeakNodeB sc (normalizeNodeId node) = true → ¬ x = 0 →
        extractLeakDemand sc node t pressure (EngineLeakValue.val x) = x) ∧
    (∀ ev, (ev = EngineLeakValue.missing ∨ ev = EngineLeakValue.nan ∨
        ev = EngineLeakValue.val 0) →
      extractLeakDemand sc node t pressure ev =
        orificeFallback sc node t pressure) := by
  constructor
  · intro x hleak hx
    unfold extractLeakDemand
    simp only [hleak, if_true]
    rw [if_neg]
    intro hand
    exact hx hand.1
  · intro ev hev
    rw [extractLeakDemand_no_engine sc node t pressure ev hev]
    unfold orificeFallback
    rfl

/-- C3 witness: scenario "42" (Cd = 0.75, A = 0.0005 m²), in-window
timestamp 10000 s, pressure 20 m, no Engine report — the exported leak flow
is the orifice estimate, which lies strictly between 0.00742 and
0.00743 m³/s (the spec's ≈ 0.00743 m³/s). -/
theorem orifice_estimate_contract_witness :
    (742 : ℝ) / 100000 <
      extractLeakDemand scenario42 "42" 10000 20 EngineLeakValue.missing ∧
    extractLeakDemand scenario42 "42" 10000 20 EngineLeakValue.missing <
      (743 : ℝ) / 100000 := by
  have hleak : isLeakNodeB scenario42 (normalizeNodeId "42") = true := by
    show ([normalizeNodeId "42"].contains (normalizeNodeId "42")) = true
    simp
  have hact : activeLeakArea scenario42 (normalizeNodeId "42") 10000 =
      some (1/2000) := rfl
  have h := (orifice_estimate_contract scenario42 "42" 10000 20
    EngineLeakValue.missing (Or.inl rfl)).1 (1/2000) hleak hact (by norm_num)
  rw [h]
  have hcast : (scenario42.discharge_coeff : ℝ) * ((1/2000 : ℚ) : ℝ) = 3/8000 := by
    show ((3/4 : ℚ) : ℝ) * ((1/2000 : ℚ) : ℝ) = 3/8000
    push_cast
    norm_num
  have hsq : (2 : ℝ) * 9.81 * 20 = 392.4 := by norm_num
  rw [hcast, hsq]
  have hs2 : Real.sqrt 392.4 ^ 2 = 392.4 := Real.sq_sqrt (by norm_num)
  have hs0 : (0 : ℝ) ≤ Real.sqrt 392.4 := Real.sqrt_nonneg _
  have hlb : (19.79 : ℝ) < Real.sqrt 392.4 := by nlinarith [hs2, hs0]
  have hub : Real.sqrt 392.4 < (19.81 : ℝ) := by nlinarith [hs2, hs0]
  constructor
  · nlinarith [hlb]
  · nlinarith [hub]

/-- C9 witness: at the leak node inside the window with pressure 20, a
finite nonzero Engine value 5 is exported unchanged, while a NaN Engine
value falls back to the orifice estimate. -/
theorem engine_value_precedence_witness :
    extractLeakDemand scenario42 "42" 10000 20 (EngineLeakValue.val 5) = 5 ∧
    extractLeakDemand scenario42 "42" 10000 20 EngineLeakValue.nan =
      orificeFallback scenario42 "42" 10000 20 := by
  have hleak : isLeakNodeB scenario42 (normalizeNodeId "42") = true := by
    show ([normalizeNodeId "42"].contains (normalizeNodeId "42")) = true
    simp
  have h := engine_value_precedence scenario42 "42" 10000 20
  exact ⟨h.1 5 hleak (by norm_num),
    h.2 EngineLeakValue.nan (Or.inr (Or.inl rfl))⟩
